import Mathlib

/-!
Verification of the AEPS health-dashboard statistical core.

The repository computes its metrics inside two BigQuery SQL strings
(`aeps_health_dashboard.py`, "plain", and `aeps_health_dashboard_secure.py`,
"secure") plus a small amount of Python post-processing.  This file gives a
shallow embedding of that logic:

* numeric SQL values are `Option ℚ` (`none` = SQL NULL), with SQL's
  three-valued comparison semantics: a comparison involving NULL is not TRUE,
  so a `CASE WHEN` branch guarded by it is skipped;
* per-bucket event collections are lists of `TxnEvent` records and the
  aggregate CTE columns (`COUNT`, `COUNTIF`, `SUM`, `SAFE_DIVIDE`, …) are
  functions on those lists;
* `STDDEV_POP` / `STDDEV_SAMP` are modelled through their squares
  (`stddev_pop_sq`, `stddev_samp_sq`), which stay in `ℚ`; since a standard
  deviation is nonnegative, two standard deviations are equal or zero exactly
  when their squares are, which is all the theorems below need;
* the pandas post-processing (health scores, anomaly counting, the state
  gainer/decliner ranking) is embedded as plain functions, with the empty
  data-frame branches of the Python represented by `Option` inputs.
-/

namespace AepsDashboard

/-- BigQuery `SAFE_DIVIDE(a, b)`: `NULL` on a zero divisor, `a / b` otherwise. -/
def safe_divide (a b : ℚ) : Option ℚ := if b = 0 then none else some (a / b)

/-- BigQuery `ROUND(x, 2)`.  BigQuery rounds half away from zero; `round`
rounds half up, and the two agree on the nonnegative rates and amounts this
dashboard rounds. -/
def round2 (x : ℚ) : ℚ := (round (x * 100) : ℚ) / 100

/-- SQL subtraction: `NULL` if either operand is `NULL`. -/
def sqlSub (a b : Option ℚ) : Option ℚ :=
  match a, b with
  | some x, some y => some (x - y)
  | _, _ => none

/-- SQL addition: `NULL` if either operand is `NULL`. -/
def sqlAdd (a b : Option ℚ) : Option ℚ :=
  match a, b with
  | some x, some y => some (x + y)
  | _, _ => none

/-- SQL multiplication by a constant: `NULL` stays `NULL`. -/
def sqlMul (k : ℚ) (a : Option ℚ) : Option ℚ := a.map (fun x => k * x)

/-- SQL `<` as consumed by `CASE WHEN`: a NULL comparison is not TRUE. -/
def sqlLt (a b : Option ℚ) : Bool :=
  match a, b with
  | some x, some y => decide (x < y)
  | _, _ => false

/-- SQL `>` as consumed by `CASE WHEN`: a NULL comparison is not TRUE. -/
def sqlGt (a b : Option ℚ) : Bool :=
  match a, b with
  | some x, some y => decide (y < x)
  | _, _ => false

/-! ### Transaction events and the `hourly_metrics` CTE

One row of `combined_data` restricted to the fields the aggregates read:
`spice_message` (success predicate is `LOWER(spice_message) = 'success'`),
`aggregator` (nullable; `LOWER(NULL) = 'x'` is NULL, hence never counted),
and the numeric `amount`. -/

structure TxnEvent where
  spice_message : String
  aggregator : Option String
  amount : ℚ
deriving DecidableEq

/-- SQL `LOWER`: ASCII lowercasing, character by character. -/
def lowerStr (s : String) : String := ⟨s.data.map Char.toLower⟩

/-- Success predicate of the transaction stream: `LOWER(spice_message) = 'success'`. -/
def isSuccessTxn (e : TxnEvent) : Bool := lowerStr e.spice_message == "success"

/-- Dimension predicate `LOWER(aggregator) = name`; a NULL aggregator makes the
SQL comparison NULL, so `COUNTIF` does not count the row. -/
def aggIs (name : String) (e : TxnEvent) : Bool :=
  match e.aggregator with
  | some a => lowerStr a == name
  | none => false

/-- `COUNT(*)` of `hourly_metrics` (both dashboards, same CTE text). -/
def total_txns (es : List TxnEvent) : ℕ := es.length

/-- `COUNTIF(LOWER(spice_message) = 'success')`. -/
def success_txns (es : List TxnEvent) : ℕ := es.countP isSuccessTxn

/-- `COUNTIF(LOWER(aggregator) = 'ybl')`. -/
def ybl_total (es : List TxnEvent) : ℕ := es.countP (aggIs "ybl")

/-- `COUNTIF(LOWER(spice_message) = 'success' AND LOWER(aggregator) = 'ybl')`. -/
def ybl_success (es : List TxnEvent) : ℕ :=
  es.countP (fun e => isSuccessTxn e && aggIs "ybl" e)

/-- `COUNTIF(LOWER(aggregator) = 'nsdl')`. -/
def nsdl_total (es : List TxnEvent) : ℕ := es.countP (aggIs "nsdl")

/-- `COUNTIF(LOWER(spice_message) = 'success' AND LOWER(aggregator) = 'nsdl')`. -/
def nsdl_success (es : List TxnEvent) : ℕ :=
  es.countP (fun e => isSuccessTxn e && aggIs "nsdl" e)

/-- `COUNTIF(LOWER(aggregator) = 'ybln')`. -/
def ybln_total (es : List TxnEvent) : ℕ := es.countP (aggIs "ybln")

/-- `SUM(CASE WHEN LOWER(spice_message) = 'success' THEN amount END) / 10000000`. -/
def total_amount_cr (es : List TxnEvent) : ℚ :=
  ((es.filter isSuccessTxn).map TxnEvent.amount).sum / 10000000

/-! ### Success rates

Plain dashboard (`yesterday_data` CTE, lines 201–213) and the bio-auth CTEs of
both files use `ROUND(SAFE_DIVIDE(succ, tot) * 100, 2)`; the secure
dashboard's transaction `success_rates` CTE (lines 450–474) instead uses
`CASE WHEN tot > 0 THEN ROUND(succ / tot * 100, 2) ELSE 0 END`. -/

/-- `ROUND(SAFE_DIVIDE(succ, tot) * 100, 2)` on the counts of a bucket. -/
def rate_safe (succ tot : ℕ) : Option ℚ :=
  (safe_divide succ tot).map (fun r => round2 (r * 100))

/-- `overall_success_rate` of the plain dashboard's `yesterday_data` CTE. -/
def overall_success_rate (es : List TxnEvent) : Option ℚ :=
  rate_safe (success_txns es) (total_txns es)

/-- `ybl_success_rate` of the plain dashboard's `yesterday_data` CTE. -/
def ybl_success_rate (es : List TxnEvent) : Option ℚ :=
  rate_safe (ybl_success es) (ybl_total es)

/-- `nsdl_success_rate` of the plain dashboard's `yesterday_data` CTE. -/
def nsdl_success_rate (es : List TxnEvent) : Option ℚ :=
  rate_safe (nsdl_success es) (nsdl_total es)

/-- `fa2_succ_rate` of the bio-auth `yesterday_data` CTE (both files):
`ROUND(SAFE_DIVIDE(succ_att_ftr, total_att_ftr) * 100, 2)`. -/
def fa2_succ_rate (succ tot : ℕ) : Option ℚ := rate_safe succ tot

/-- The secure dashboard's rate: `CASE WHEN tot > 0 THEN ROUND(succ/tot*100, 2)
ELSE 0 END` (`success_rates` CTE). -/
def rate_case (succ tot : ℕ) : ℚ :=
  if 0 < tot then round2 ((succ : ℚ) / tot * 100) else 0

/-- `overall_success_rate` of the secure dashboard's `success_rates` CTE. -/
def overall_success_rate_secure (es : List TxnEvent) : ℚ :=
  rate_case (success_txns es) (total_txns es)

/-- `ybl_success_rate` of the secure dashboard's `success_rates` CTE. -/
def ybl_success_rate_secure (es : List TxnEvent) : ℚ :=
  rate_case (ybl_success es) (ybl_total es)

/-! ### Baseline aggregates -/

/-- SQL `AVG` over the non-NULL values of a group (the secure
`historical_metrics` CTE feeds it one value per prior day). -/
def sqlAvg (xs : List ℚ) : Option ℚ :=
  if xs.isEmpty then none else some (xs.sum / xs.length)

/-- Arithmetic mean (used inside the stddev aggregates). -/
def mean (xs : List ℚ) : ℚ := xs.sum / xs.length

/-- Sum of squared deviations from the mean. -/
def sqDev (xs : List ℚ) : ℚ := (xs.map (fun x => (x - mean xs) ^ 2)).sum

/-- Square of BigQuery `STDDEV_POP`: NULL only on an empty input, `0` already
for a single value. -/
def stddev_pop_sq (xs : List ℚ) : Option ℚ :=
  if xs.isEmpty then none else some (sqDev xs / xs.length)

/-- Square of BigQuery `STDDEV_SAMP`: divides by `n − 1` and is NULL for fewer
than two inputs. -/
def stddev_samp_sq (xs : List ℚ) : Option ℚ :=
  if 2 ≤ xs.length then some (sqDev xs / ((xs.length : ℚ) - 1)) else none

/-- Squared `stddev_success_rate` of the plain dashboard's `median_sd_data`
CTE (line 222): `STDDEV_POP` over the prior days' hourly success rates. -/
def stddev_success_rate_sq (hist : List ℚ) : Option ℚ := stddev_pop_sq hist

/-- Squared `stddev_succ_rate` of the bio-auth `median_data` CTE (plain line
321, secure line 589): `STDDEV_SAMP` over the prior days' hourly rates. -/
def stddev_succ_rate_sq (hist : List ℚ) : Option ℚ := stddev_samp_sq hist

/-- Squared `stddev_success_rate` of the secure dashboard's
`historical_metrics` CTE (line 479): `STDDEV_SAMP`. -/
def stddev_success_rate_secure_sq (hist : List ℚ) : Option ℚ := stddev_samp_sq hist

/-- `APPROX_QUANTILES(x, 2)[OFFSET(1)]`: the median of the group, with the
upper-middle (nearest-rank) convention for even counts; NULL on empty input. -/
def median_approx (xs : List ℚ) : Option ℚ :=
  if xs.isEmpty then none
  else some ((xs.insertionSort (· ≤ ·)).getD (xs.length / 2) 0)

/-! ### Anomaly classification CASE expressions -/

/-- `success_rate_anomaly` CASE of the plain dashboard (lines 249–253):
three branches, `k = 1`, any NULL falls into the `ELSE 'normal'`. -/
def success_rate_anomaly (cur m s : Option ℚ) : String :=
  if sqlLt cur (sqlSub m s) then "lower anomaly ↓"
  else if sqlGt cur (sqlAdd m s) then "upper anomaly ↑"
  else "normal"

/-- `fa2_succ_flag` CASE of the plain dashboard's bio-auth query (lines
339–344): the only path with a `'No Data'` branch, checked after the two band
branches and only on the current value. -/
def fa2_succ_flag (cur m s : Option ℚ) : String :=
  if sqlLt cur (sqlSub m s) then "Lower Anomaly ↓"
  else if sqlGt cur (sqlAdd m s) then "Upper Anomaly ↑"
  else if cur.isNone then "No Data"
  else "Normal"

/-- `fa2_succ_flag` CASE of the secure dashboard's bio-auth query (lines
609–613): three branches, `ELSE 'normal'`, no `'No Data'` branch. -/
def fa2_succ_flag_secure (cur m s : Option ℚ) : String :=
  if sqlLt cur (sqlSub m s) then "Lower Anomaly ↓"
  else if sqlGt cur (sqlAdd m s) then "Upper Anomaly ↑"
  else "normal"

/-- `success_rate_anomaly` / `amount_cr_anomaly` CASE of the secure
dashboard's transaction query (lines 508–517): `k = 2` around the historical
mean, `ELSE 'normal'`. -/
def success_rate_anomaly_secure (cur avg s : Option ℚ) : String :=
  if sqlLt cur (sqlSub avg (sqlMul 2 s)) then "low"
  else if sqlGt cur (sqlAdd avg (sqlMul 2 s)) then "high"
  else "normal"

/-! ### Health score composition (Python, both dashboards)

`transaction_health_score = min(100, max(0, avg_transaction_success))` when
the transaction frame is nonempty, `0` when it is empty; likewise for the
bio score; `overall_health_score = t * 0.7 + b * 0.3` unconditionally.  The
empty-frame branch is modelled by a `none` input. -/

/-- Python `min(100, max(0, x))`. -/
def clamp100 (x : ℚ) : ℚ := min 100 (max 0 x)

/-- `transaction_health_score`: clamp of the mean success rate, `0` when the
transaction data frame is empty. -/
def transaction_health_score (avgRate : Option ℚ) : ℚ :=
  match avgRate with
  | some a => clamp100 a
  | none => 0

/-- `bio_health_score`: clamp of the mean bio-auth rate, `0` when the bio
data frame is empty. -/
def bio_health_score (avgRate : Option ℚ) : ℚ :=
  match avgRate with
  | some a => clamp100 a
  | none => 0

/-- `overall_health_score = transaction_health_score * 0.7 + bio_health_score * 0.3`. -/
def overall_health_score (t b : ℚ) : ℚ := t * (7/10) + b * (3/10)

/-- The composite as actually computed from the two (possibly empty) input
streams. -/
def overall_health_score_from (tx bio : Option ℚ) : ℚ :=
  overall_health_score (transaction_health_score tx) (bio_health_score bio)

/-! ### Baseline historical window

Both dashboards declare `last_7_days_start = today − w` (`w` = 7, or 8 for the
plain bio-auth query) and `last_7_days_end = today − 1`, and every baseline
CTE filters `WHERE date BETWEEN last_7_days_start AND last_7_days_end`.
Dates are modelled as integers (days). -/

/-- Membership of a date in the historical window `[today − w, today − 1]`. -/
def inHistWindow (today w d : ℤ) : Bool := decide (today - w ≤ d ∧ d ≤ today - 1)

/-- The values a baseline aggregate sees: the rows of the given hour position
whose date lies in the historical window. -/
def histValues (today w : ℤ) (rows : List (ℤ × ℚ)) : List ℚ :=
  (rows.filter (fun r => inHistWindow today w r.1)).map Prod.snd

/-- Replace the metric value of every row of date `d` (used to state that the
evaluation date's bucket cannot influence a baseline). -/
def alterOn (d : ℤ) (f : ℚ → ℚ) (rows : List (ℤ × ℚ)) : List (ℤ × ℚ) :=
  rows.map (fun r => if r.1 = d then (r.1, f r.2) else r)

/-! ### State-wise gainers / decliners (secure dashboard, lines 1620–1656)

`state_metrics` rows carry `yesterday_gtv` and the (nullable) 90-day median;
`gtv_vs_median_ratio = SAFE_DIVIDE(yesterday_gtv, median_90d_gtv)`.  The page
keeps states with `yesterday_gtv > 1.0`, then
`gainers  = ratio > 1.1, sorted descending by ratio, head(5)` and
`losers   = ratio < 0.9, sorted ascending  by ratio, head(5)`.
The pandas sort is modelled by a stable `insertionSort` on the ratio; pandas'
default quicksort fixes no tie order, so the theorems below only address
inputs whose ratios are pairwise distinct. -/

structure StateRow where
  final_state : String
  yesterday_gtv : ℚ
  median_90d_gtv : Option ℚ
deriving DecidableEq

/-- `SAFE_DIVIDE(yesterday_gtv, median_90d_gtv)`: NULL when the median is NULL
or zero. -/
def gtv_vs_median_ratio (r : StateRow) : Option ℚ :=
  r.median_90d_gtv.bind (fun m => safe_divide r.yesterday_gtv m)

/-- Sort key for the ranker (rows reaching the sort all have a non-NULL ratio). -/
def ratioD (r : StateRow) : ℚ := (gtv_vs_median_ratio r).getD 0

/-- Pandas `ratio > c` filter: false on NULL/NaN. -/
def optGtC (o : Option ℚ) (c : ℚ) : Bool :=
  match o with
  | some x => decide (c < x)
  | none => false

/-- Pandas `ratio < c` filter: false on NULL/NaN. -/
def optLtC (o : Option ℚ) (c : ℚ) : Bool :=
  match o with
  | some x => decide (x < c)
  | none => false

/-- Materiality floor: `state_data[state_data['yesterday_gtv'] > 1.0]`. -/
def high_volume_states (rows : List StateRow) : List StateRow :=
  rows.filter (fun r => decide ((1 : ℚ) < r.yesterday_gtv))

/-- Qualification predicate for gainers: floor and `ratio > 1.1`. -/
def gainerQual (r : StateRow) : Bool :=
  decide ((1 : ℚ) < r.yesterday_gtv) && optGtC (gtv_vs_median_ratio r) (11/10)

/-- Qualification predicate for decliners: floor and `ratio < 0.9`. -/
def loserQual (r : StateRow) : Bool :=
  decide ((1 : ℚ) < r.yesterday_gtv) && optLtC (gtv_vs_median_ratio r) (9/10)

/-- `gainers`: qualifying rows sorted descending by ratio, first five. -/
def gainers (rows : List StateRow) : List StateRow :=
  (((high_volume_states rows).filter
      (fun r => optGtC (gtv_vs_median_ratio r) (11/10))).insertionSort
    (fun a b => ratioD b ≤ ratioD a)).take 5

/-- `losers`: qualifying rows sorted ascending by ratio, first five. -/
def losers (rows : List StateRow) : List StateRow :=
  (((high_volume_states rows).filter
      (fun r => optLtC (gtv_vs_median_ratio r) (9/10))).insertionSort
    (fun a b => ratioD a ≤ ratioD b)).take 5

/-! ### Active-anomaly counting (plain dashboard, lines 440–450)

`total_anomalies = len(tx[tx['success_rate_anomaly'] != 'normal']) +
len(bio[bio['fa2_succ_flag'] != 'Normal'])`.  A pandas cell can be null
(`NaN != 'normal'` is `True`), so flags are `Option String`. -/

/-- The four band-anomaly flag spellings the two plain-dashboard CASEs emit. -/
def isBandAnomaly (f : Option String) : Bool :=
  f == some "lower anomaly ↓" || f == some "upper anomaly ↑" ||
  f == some "Lower Anomaly ↓" || f == some "Upper Anomaly ↑"

/-- `total_anomalies` as computed by the plain dashboard. -/
def total_anomalies (txFlags bioFlags : List (Option String)) : ℕ :=
  (txFlags.filter (fun f => decide (f ≠ some "normal"))).length +
  (bioFlags.filter (fun f => decide (f ≠ some "Normal"))).length

/-- The single-bucket scenario of the spec: two YBL events (one success, one
failure) and one successful NSDL event. -/
def scenarioEvents : List TxnEvent :=
  [⟨"SUCCESS", some "YBL", 100⟩, ⟨"FAIL", some "YBL", 50⟩,
   ⟨"SUCCESS", some "NSDL", 200⟩]

end AepsDashboard

namespace AepsDashboard

/-! ## Helper lemmas -/

/-- Clamping yields a value in `[0, 100]`. -/
theorem clamp100_nonneg (x : ℚ) : 0 ≤ clamp100 x :=
  le_min (by norm_num) (le_max_left 0 x)

/-- Clamping yields a value in `[0, 100]`. -/
theorem clamp100_le (x : ℚ) : clamp100 x ≤ 100 :=
  min_le_left _ _

/-- Filtering with a weaker predicate keeps at least as many elements. -/
theorem filter_length_mono {α : Type} {p q : α → Bool}
    (h : ∀ a, p a = true → q a = true) :
    ∀ l : List α, (l.filter p).length ≤ (l.filter q).length := by
  intro l
  induction l with
  | nil => simp
  | cons a l ih =>
    by_cases hp : p a = true
    · have hq := h a hp
      simp only [List.filter_cons, hp, hq, if_true, List.length_cons]
      omega
    · simp only [List.filter_cons, Bool.not_eq_true] at hp
      simp only [List.filter_cons, hp, Bool.false_eq_true, if_false]
      by_cases hq : q a = true
      · simp only [hq, if_true, List.length_cons]
        omega
      · simp only [Bool.not_eq_true] at hq
        simp only [hq, Bool.false_eq_true, if_false]
        exact ih

/-! ## C1 -/

/-- C1, counterexample: in the secure dashboard's `success_rates` CTE a bucket
with one NSDL event has `ybl_total = 0`, and the computed YBL success rate is
the number `0` — not NULL/no-data — so the claim that a zero-denominator slice
is never coerced to 0 fails on the secure transaction path. -/
theorem c1_counterexample :
    ybl_success_rate_secure [⟨"SUCCESS", some "NSDL", 200⟩] = 0 ∧
    ybl_total [⟨"SUCCESS", some "NSDL", 200⟩] = 0 := by
  constructor
  · have h : ybl_total [⟨"SUCCESS", some "NSDL", 200⟩] = 0 := by decide
    have h2 : ybl_success [⟨"SUCCESS", some "NSDL", 200⟩] = 0 := by decide
    simp only [ybl_success_rate_secure, h, h2, rate_case]
    norm_num
  · decide

/-- C1, amended: zero-denominator buckets and slices yield NULL (never 0, 100
or NaN) on the plain dashboard's transaction path and on the bio-auth paths of
both files, all of which use `SAFE_DIVIDE`; the secure dashboard's transaction
`success_rates` CTE instead coerces them to the number 0. -/
theorem c1_zero_denominator (es : List TxnEvent) :
    (total_txns es = 0 →
      overall_success_rate es = none ∧ overall_success_rate_secure es = 0)
    ∧ (ybl_total es = 0 →
      ybl_success_rate es = none ∧ ybl_success_rate_secure es = 0)
    ∧ ∀ succ : ℕ, fa2_succ_rate succ 0 = none ∧ rate_safe succ 0 = none := by
  refine ⟨?_, ?_, ?_⟩
  · intro h
    constructor
    · simp [overall_success_rate, h, rate_safe, safe_divide]
    · simp [overall_success_rate_secure, h, rate_case]
  · intro h
    constructor
    · simp [ybl_success_rate, h, rate_safe, safe_divide]
    · simp [ybl_success_rate_secure, h, rate_case]
  · intro succ
    constructor
    · simp [fa2_succ_rate, rate_safe, safe_divide]
    · simp [rate_safe, safe_divide]

/-- C1, witness: the amended theorem applied to the empty bucket. -/
theorem c1_zero_denominator_witness :
    overall_success_rate ([] : List TxnEvent) = none
    ∧ overall_success_rate_secure ([] : List TxnEvent) = 0 :=
  (c1_zero_denominator []).1 rfl

/-! ## C6 -/

/-- C6: the overall health score is
`0.7 * clamp(tx, 0, 100) + 0.3 * clamp(bio, 0, 100)`, always lies in
`[0, 100]`, maps `{100, 100}` to `100` and `{80, 100}` to `86`. -/
theorem c6_health_score_weighted_clamp :
    ∀ t b : ℚ,
      overall_health_score_from (some t) (some b) =
        clamp100 t * (7/10) + clamp100 b * (3/10)
      ∧ 0 ≤ overall_health_score_from (some t) (some b)
      ∧ overall_health_score_from (some t) (some b) ≤ 100
      ∧ overall_health_score_from (some 100) (some 100) = 100
      ∧ overall_health_score_from (some 80) (some 100) = 86 := by
  intro t b
  have e : ∀ x y : ℚ, overall_health_score_from (some x) (some y) =
      clamp100 x * (7/10) + clamp100 y * (3/10) := by
    intro x y
    simp [overall_health_score_from, overall_health_score,
      transaction_health_score, bio_health_score]
  refine ⟨e t b, ?_, ?_, ?_, ?_⟩
  · rw [e t b]
    have h1 := clamp100_nonneg t
    have h2 := clamp100_nonneg b
    nlinarith
  · rw [e t b]
    have h1 := clamp100_le t
    have h2 := clamp100_le b
    nlinarith
  · rw [e 100 100]
    norm_num [clamp100]
  · rw [e 80 100]
    norm_num [clamp100]

/-! ## C7 -/

/-- C7, counterexample: with a healthy transaction stream (clamped score 100)
and an empty bio-auth stream, the composite is `70` — the missing term is
silently taken as `0` under its unchanged weight `0.3`.  Renormalizing onto
the remaining stream would give `100`, and the composer returns a bare number,
so no partial status is reported either. -/
theorem c7_counterexample :
    overall_health_score_from (some 100) none = 70
    ∧ transaction_health_score (some 100) = 100 := by
  constructor
  · norm_num [overall_health_score_from, overall_health_score,
      transaction_health_score, bio_health_score, clamp100]
  · norm_num [transaction_health_score, clamp100]

/-- C7, amended: when an input stream is empty its health-score term is `0`
and the weights stay `0.7`/`0.3`; the composer neither renormalizes nor
reports a partial status, so a missing bio stream caps the composite at
`0.7 * clamp(tx)` and a missing transaction stream caps it at
`0.3 * clamp(bio)`. -/
theorem c7_missing_stream_zeroed :
    ∀ t b : ℚ,
      overall_health_score_from (some t) none = clamp100 t * (7/10)
      ∧ overall_health_score_from none (some b) = clamp100 b * (3/10)
      ∧ overall_health_score_from none none = 0 := by
  intro t b
  refine ⟨?_, ?_, ?_⟩ <;>
    simp [overall_health_score_from, overall_health_score,
      transaction_health_score, bio_health_score]

/-! ## C10 -/

/-- C10: `total_anomalies` counts exactly the rows whose flag differs from the
literal `'normal'` (transactions) resp. `'Normal'` (bio-auth).  Every
band-anomaly spelling the plain dashboard's CASEs emit differs from both
literals, so the count never understates the band anomalies; and a bio row
flagged `'No Data'`, a null flag, or a differently capitalized flag is also
counted, so the count can overstate them (the concrete rows here count 3 with
zero band anomalies present). -/
theorem c10_active_anomalies_count :
    ∀ txFlags bioFlags : List (Option String),
      (txFlags.filter isBandAnomaly).length + (bioFlags.filter isBandAnomaly).length
        ≤ total_anomalies txFlags bioFlags
      ∧ total_anomalies [some "normal"] [some "No Data", none, some "NORMAL"] = 3
      ∧ (([some "No Data", none, some "NORMAL"] : List (Option String)).filter
          isBandAnomaly).length = 0
      ∧ (([some "normal"] : List (Option String)).filter isBandAnomaly).length = 0 := by
  intro txFlags bioFlags
  refine ⟨?_, by decide, by decide, by decide⟩
  have htx : ∀ f : Option String, isBandAnomaly f = true →
      decide (f ≠ some "normal") = true := by
    intro f hf
    simp only [isBandAnomaly, Bool.or_eq_true, beq_iff_eq] at hf
    rcases hf with ((h | h) | h) | h <;> subst h <;> decide
  have hbio : ∀ f : Option String, isBandAnomaly f = true →
      decide (f ≠ some "Normal") = true := by
    intro f hf
    simp only [isBandAnomaly, Bool.or_eq_true, beq_iff_eq] at hf
    rcases hf with ((h | h) | h) | h <;> subst h <;> decide
  have h1 := filter_length_mono htx txFlags
  have h2 := filter_length_mono hbio bioFlags
  simp only [total_anomalies]
  omega

end AepsDashboard

namespace AepsDashboard

/-! ## C2 -/

/-- C2, counterexample: in the plain dashboard's transaction CASE a NULL
current value yields the literal `'normal'` — the same output as a genuinely
normal bucket — instead of a distinct no-data classification, so the claimed
four-way rule fails on that path. -/
theorem c2_counterexample :
    success_rate_anomaly none (some 50) (some 5) = "normal"
    ∧ success_rate_anomaly none (some 50) (some 5) =
        success_rate_anomaly (some 50) (some 50) (some 5) := by
  constructor <;>
    norm_num [success_rate_anomaly, sqlLt, sqlGt, sqlSub, sqlAdd]

/-- C2, amended: with all of current, center and stddev present, every CASE
classifies by the band `center ± k·stddev` with `k` fixed per path (1 in the
plain dashboard's transaction and bio-auth CASEs and the secure bio-auth CASE,
2 in the secure transaction CASE, whose center is the historical mean rather
than the median); when any input is NULL, the transaction CASEs of both files
and the secure bio-auth CASE fall into `ELSE 'normal'`, and only the plain
bio-auth CASE distinguishes no-data — `'No Data'` exactly when the current
value is NULL, `'Normal'` even when only the baseline is undefined. -/
theorem c2_classifier_cases :
    ∀ cur m s : Option ℚ,
      (∀ c me sd : ℚ, cur = some c → m = some me → s = some sd →
        success_rate_anomaly cur m s =
          (if c < me - sd then "lower anomaly ↓"
           else if me + sd < c then "upper anomaly ↑" else "normal")
        ∧ fa2_succ_flag cur m s =
          (if c < me - sd then "Lower Anomaly ↓"
           else if me + sd < c then "Upper Anomaly ↑" else "Normal")
        ∧ fa2_succ_flag_secure cur m s =
          (if c < me - sd then "Lower Anomaly ↓"
           else if me + sd < c then "Upper Anomaly ↑" else "normal")
        ∧ success_rate_anomaly_secure cur m s =
          (if c < me - 2 * sd then "low"
           else if me + 2 * sd < c then "high" else "normal"))
      ∧ ((cur = none ∨ m = none ∨ s = none) →
        success_rate_anomaly cur m s = "normal"
        ∧ success_rate_anomaly_secure cur m s = "normal"
        ∧ fa2_succ_flag_secure cur m s = "normal"
        ∧ fa2_succ_flag cur m s = (if cur.isNone then "No Data" else "Normal")) := by
  intro cur m s
  constructor
  · rintro c me sd rfl rfl rfl
    refine ⟨?_, ?_, ?_, ?_⟩ <;>
    · by_cases h1 : c < me - sd
      · simp [success_rate_anomaly, fa2_succ_flag, fa2_succ_flag_secure,
          success_rate_anomaly_secure, sqlLt, sqlGt, sqlSub, sqlAdd, sqlMul, h1]
      · by_cases h2 : me + sd < c <;>
        by_cases h3 : c < me - 2 * sd <;>
        by_cases h4 : me + 2 * sd < c <;>
          simp [success_rate_anomaly, fa2_succ_flag, fa2_succ_flag_secure,
            success_rate_anomaly_secure, sqlLt, sqlGt, sqlSub, sqlAdd, sqlMul,
            h1, h2, h3, h4]
  · intro h
    rcases cur with _ | c <;> rcases m with _ | me <;> rcases s with _ | sd <;>
      simp_all [success_rate_anomaly, fa2_succ_flag, fa2_succ_flag_secure,
        success_rate_anomaly_secure, sqlLt, sqlGt, sqlSub, sqlAdd, sqlMul]

/-- C2, witness: the amended theorem applied at concrete inputs — a current
value one band below the median is a lower anomaly, and a NULL current value
on the plain bio-auth path is `'No Data'`. -/
theorem c2_classifier_cases_witness :
    success_rate_anomaly (some 40) (some 50) (some 5) = "lower anomaly ↓"
    ∧ fa2_succ_flag none (some 50) (some 5) = "No Data" := by
  constructor
  · have h :=
      ((c2_classifier_cases (some 40) (some 50) (some 5)).1 40 50 5 rfl rfl rfl).1
    rw [h]
    norm_num
  · have h := ((c2_classifier_cases none (some 50) (some 5)).2 (Or.inl rfl)).2.2.2
    rw [h]
    rfl

/-! ## C3 -/

/-- The evaluation date is never inside its own historical window. -/
theorem inHistWindow_self_false (today w : ℤ) : inHistWindow today w today = false := by
  simp only [inHistWindow, decide_eq_false_iff_not, not_and, not_le]
  omega

/-- Altering the evaluation date's rows does not change what a baseline sees. -/
theorem histValues_alterOn (today w : ℤ) (f : ℚ → ℚ) (rows : List (ℤ × ℚ)) :
    histValues today w (alterOn today f rows) = histValues today w rows := by
  unfold histValues alterOn
  rw [List.filter_map, List.map_map]
  have h1 : List.filter
      ((fun r : ℤ × ℚ => inHistWindow today w r.1) ∘
        (fun r : ℤ × ℚ => if r.1 = today then (r.1, f r.2) else r)) rows
      = List.filter (fun r : ℤ × ℚ => inHistWindow today w r.1) rows := by
    apply List.filter_congr
    intro r _
    by_cases h : r.1 = today
    · simp [Function.comp, h, inHistWindow_self_false]
    · simp [Function.comp, h]
  rw [h1]
  apply List.map_congr_left
  intro r hr
  have hp := (List.mem_filter.mp hr).2
  have hne : r.1 ≠ today := by
    intro hcontra
    rw [hcontra] at hp
    rw [inHistWindow_self_false] at hp
    exact Bool.false_ne_true hp
  simp [Function.comp, hne]

/-- Removing the evaluation date's rows does not change what a baseline sees. -/
theorem histValues_filter_ne (today w : ℤ) (rows : List (ℤ × ℚ)) :
    histValues today w (rows.filter (fun r => decide (r.1 ≠ today)))
      = histValues today w rows := by
  unfold histValues
  rw [List.filter_filter]
  congr 1
  apply List.filter_congr
  intro r _
  by_cases h : r.1 = today
  · simp [h, inHistWindow_self_false]
  · simp [h]

/-- C3: every date inside a historical window `[today − w, today − 1]` is
strictly before the evaluation date, and consequently altering or removing the
evaluation date's rows leaves the values seen by every baseline aggregate
unchanged (both dashboards use `w = 7`, the plain bio-auth query `w = 8`). -/
theorem c3_baseline_excludes_evaluation_date :
    ∀ (today w : ℤ) (rows : List (ℤ × ℚ)) (f : ℚ → ℚ),
      histValues today w (alterOn today f rows) = histValues today w rows
      ∧ histValues today w (rows.filter (fun r => decide (r.1 ≠ today)))
          = histValues today w rows
      ∧ ∀ d : ℤ, inHistWindow today w d = true → d < today := by
  intro today w rows f
  refine ⟨histValues_alterOn today w f rows, histValues_filter_ne today w rows, ?_⟩
  intro d hd
  simp only [inHistWindow, decide_eq_true_eq] at hd
  omega

/-- C3, witness: the theorem applied at a concrete window — the bucket dated
`10` is invisible to the baseline evaluated on date `10` with a 7-day window. -/
theorem c3_baseline_excludes_witness :
    histValues 10 7 (alterOn 10 (fun _ => 999) [(10, 5), (9, 3)])
      = histValues 10 7 [(10, 5), (9, 3)]
    ∧ (3 : ℤ) < 10 := by
  refine ⟨(c3_baseline_excludes_evaluation_date 10 7 [(10, 5), (9, 3)] (fun _ => 999)).1, ?_⟩
  exact (c3_baseline_excludes_evaluation_date 10 7 [(10, 5), (9, 3)] (fun _ => 999)).2.2
    3 (by decide)

/-! ## C5 -/

/-- C5, counterexample: one single historical period `[50]` gives the plain
dashboard's transaction baseline a defined, zero `STDDEV_POP` (squared here),
a median of `50`, and the classifier then flags the current value `51` as an
upper anomaly — a false anomaly manufactured from insufficient history, where
the claim requires an undefined baseline and a no-data flag. -/
theorem c5_counterexample :
    stddev_success_rate_sq [50] = some 0
    ∧ median_approx [50] = some 50
    ∧ success_rate_anomaly (some 51) (median_approx [50]) (some 0)
        = "upper anomaly ↑" := by
  refine ⟨?_, ?_, ?_⟩
  · norm_num [stddev_success_rate_sq, stddev_pop_sq, sqDev, mean]
  · norm_num [median_approx]
  · norm_num [median_approx, success_rate_anomaly, sqlLt, sqlGt, sqlSub, sqlAdd]

/-- C5, amended: for a single historical period the sample-stddev baselines
(bio-auth in both files, secure transaction) are NULL, so their CASEs can flag
no anomaly — but they fall to `'Normal'`/`'normal'` rather than a no-data
flag; the plain dashboard's transaction baselines use `STDDEV_POP`, which is
`0` (not NULL) for a single period, producing a degenerate zero-width band
that flags any current value above the single historical value as an upper
anomaly. -/
theorem c5_single_period :
    ∀ v c : ℚ,
      stddev_samp_sq [v] = none
      ∧ stddev_pop_sq [v] = some 0
      ∧ fa2_succ_flag (some c) (some v) none = "Normal"
      ∧ fa2_succ_flag none (some v) none = "No Data"
      ∧ success_rate_anomaly_secure (some c) (some v) none = "normal"
      ∧ fa2_succ_flag_secure (some c) (some v) none = "normal"
      ∧ success_rate_anomaly (some (v + 1)) (some v) (some 0) = "upper anomaly ↑" := by
  intro v c
  refine ⟨?_, ?_, ?_, ?_, ?_, ?_, ?_⟩
  · norm_num [stddev_samp_sq]
  · norm_num [stddev_pop_sq, sqDev, mean]
  · simp [fa2_succ_flag, sqlLt, sqlGt, sqlSub, sqlAdd]
  · simp [fa2_succ_flag, sqlLt, sqlGt, sqlSub, sqlAdd]
  · simp [success_rate_anomaly_secure, sqlLt, sqlGt, sqlSub, sqlAdd, sqlMul]
  · simp [fa2_succ_flag_secure, sqlLt, sqlGt, sqlSub, sqlAdd]
  · have h1 : ¬ (v + 1 < v - 0) := by linarith
    have h2 : v + 0 < v + 1 := by linarith
    simp [success_rate_anomaly, sqlLt, sqlGt, sqlSub, sqlAdd, h1, h2]

end AepsDashboard

namespace AepsDashboard

/-! ## C4 -/

/-- C4, counterexample: on the two-day window `[0, 2]` the plain dashboard's
transaction baseline dispersion (squared) is `1` while the squared sample
standard deviation is `2`; both are nonnegative, so the standard deviations
themselves differ and the transaction baseline is not the sample stddev the
claim requires. -/
theorem c4_counterexample :
    stddev_success_rate_sq [0, 2] = some 1
    ∧ stddev_samp_sq [0, 2] = some 2
    ∧ stddev_success_rate_sq [0, 2] ≠ stddev_samp_sq [0, 2] := by
  have h1 : stddev_success_rate_sq [0, 2] = some 1 := by
    norm_num [stddev_success_rate_sq, stddev_pop_sq, sqDev, mean]
  have h2 : stddev_samp_sq [0, 2] = some 2 := by
    norm_num [stddev_samp_sq, sqDev, mean]
  refine ⟨h1, h2, ?_⟩
  rw [h1, h2]
  simp

/-- C4, amended: the bio-auth baselines of both files and the secure
dashboard's historical metrics use the sample standard deviation (`n − 1`
divisor), but the plain dashboard's transaction baselines (`median_sd_data`
CTE) use the population standard deviation (`n` divisor); on any window of at
least two periods with nonzero dispersion the two estimators disagree. -/
theorem c4_sample_vs_population :
    ∀ xs : List ℚ, 2 ≤ xs.length →
      stddev_succ_rate_sq xs = some (sqDev xs / ((xs.length : ℚ) - 1))
      ∧ stddev_success_rate_secure_sq xs = some (sqDev xs / ((xs.length : ℚ) - 1))
      ∧ stddev_success_rate_sq xs = some (sqDev xs / (xs.length : ℚ))
      ∧ (sqDev xs ≠ 0 → stddev_success_rate_sq xs ≠ stddev_succ_rate_sq xs) := by
  intro xs h
  have hne : xs ≠ [] := by
    intro hnil
    rw [hnil] at h
    simp at h
  have hlen : (2 : ℚ) ≤ (xs.length : ℚ) := by exact_mod_cast h
  have hn0 : (xs.length : ℚ) ≠ 0 := by linarith
  have hn1 : (xs.length : ℚ) - 1 ≠ 0 := by linarith
  refine ⟨?_, ?_, ?_, ?_⟩
  · simp [stddev_succ_rate_sq, stddev_samp_sq, h]
  · simp [stddev_success_rate_secure_sq, stddev_samp_sq, h]
  · simp [stddev_success_rate_sq, stddev_pop_sq, hne]
  · intro hsq hcontra
    simp only [stddev_success_rate_sq, stddev_pop_sq, stddev_succ_rate_sq,
      stddev_samp_sq, hne, h, List.isEmpty_eq_true, if_false, if_true,
      if_pos, if_neg, Option.some_inj] at hcontra
    have : sqDev xs * ((xs.length : ℚ) - 1) = sqDev xs * (xs.length : ℚ) := by
      field_simp at hcontra
      linarith [hcontra]
    have h2 : ((xs.length : ℚ) - 1) = (xs.length : ℚ) :=
      mul_left_cancel₀ hsq this
    linarith

/-- C4, witness: the amended theorem applied to the window `[0, 2]`. -/
theorem c4_sample_vs_population_witness :
    stddev_succ_rate_sq [0, 2] = some 2
    ∧ stddev_success_rate_sq [0, 2] = some 1 := by
  have h := c4_sample_vs_population [0, 2] (by norm_num)
  constructor
  · rw [h.1]
    norm_num [sqDev, mean]
  · rw [h.2.2.1]
    norm_num [sqDev, mean]

/-! ## C9 -/

/-- C9: on the scenario bucket the aggregates give `total = 3`, `success = 2`,
overall rate `66.67`, YBL rate `50`, NSDL rate `100`; and in general an event
with a NULL aggregator raises the overall total by one while leaving every
per-aggregator total unchanged. -/
theorem c9_aggregator_scenario :
    total_txns scenarioEvents = 3
    ∧ success_txns scenarioEvents = 2
    ∧ overall_success_rate scenarioEvents = some (6667/100)
    ∧ ybl_success_rate scenarioEvents = some 50
    ∧ nsdl_success_rate scenarioEvents = some 100
    ∧ ∀ (es : List TxnEvent) (e : TxnEvent), e.aggregator = none →
        total_txns (es ++ [e]) = total_txns es + 1
        ∧ ybl_total (es ++ [e]) = ybl_total es
        ∧ nsdl_total (es ++ [e]) = nsdl_total es
        ∧ ybln_total (es ++ [e]) = ybln_total es := by
  have htot : total_txns scenarioEvents = 3 := by decide
  have hsucc : success_txns scenarioEvents = 2 := by decide
  have hyblS : ybl_success scenarioEvents = 1 := by decide
  have hyblT : ybl_total scenarioEvents = 2 := by decide
  have hnsdlS : nsdl_success scenarioEvents = 1 := by decide
  have hnsdlT : nsdl_total scenarioEvents = 1 := by decide
  refine ⟨htot, hsucc, ?_, ?_, ?_, ?_⟩
  · rw [overall_success_rate, htot, hsucc]
    norm_num [rate_safe, safe_divide, round2, round_eq]
  · rw [ybl_success_rate, hyblS, hyblT]
    norm_num [rate_safe, safe_divide, round2, round_eq]
  · rw [nsdl_success_rate, hnsdlS, hnsdlT]
    norm_num [rate_safe, safe_divide, round2, round_eq]
  · intro es e he
    have hagg : ∀ name : String, aggIs name e = false := by
      intro name
      simp [aggIs, he]
    refine ⟨?_, ?_, ?_, ?_⟩
    · simp [total_txns]
    · simp [ybl_total, List.countP_append, hagg]
    · simp [nsdl_total, List.countP_append, hagg]
    · simp [ybln_total, List.countP_append, hagg]

/-- C9, witness: the general null-aggregator conjunct applied to the scenario
bucket extended by an event with no aggregator. -/
theorem c9_aggregator_scenario_witness :
    total_txns (scenarioEvents ++ [⟨"SUCCESS", none, 10⟩]) = 4
    ∧ ybl_total (scenarioEvents ++ [⟨"SUCCESS", none, 10⟩]) = 2 := by
  have h := c9_aggregator_scenario.2.2.2.2.2 scenarioEvents ⟨"SUCCESS", none, 10⟩ rfl
  constructor
  · rw [h.1]
    decide
  · rw [h.2.1]
    decide

end AepsDashboard

namespace AepsDashboard

/-! ## C8 -/

/-- The two cascaded pandas filters of the gainers computation coincide with
the single qualification predicate. -/
theorem gainers_eq_filter (rows : List StateRow) :
    gainers rows = ((rows.filter gainerQual).insertionSort
      (fun a b => ratioD b ≤ ratioD a)).take 5 := by
  have h : (rows.filter (fun r => decide ((1:ℚ) < r.yesterday_gtv))).filter
      (fun r => optGtC (gtv_vs_median_ratio r) (11/10)) = rows.filter gainerQual := by
    rw [List.filter_filter]
    apply List.filter_congr
    intro r _
    simp [gainerQual, Bool.and_comm]
  unfold gainers high_volume_states
  rw [h]

/-- The two cascaded pandas filters of the decliners computation coincide with
the single qualification predicate. -/
theorem losers_eq_filter (rows : List StateRow) :
    losers rows = ((rows.filter loserQual).insertionSort
      (fun a b => ratioD a ≤ ratioD b)).take 5 := by
  have h : (rows.filter (fun r => decide ((1:ℚ) < r.yesterday_gtv))).filter
      (fun r => optLtC (gtv_vs_median_ratio r) (9/10)) = rows.filter loserQual := by
    rw [List.filter_filter]
    apply List.filter_congr
    intro r _
    simp [loserQual, Bool.and_comm]
  unfold losers high_volume_states
  rw [h]

/-- C8, counterexample: six states all pass the floor and all have ratio above
the elevated cutoff, yet `gainers` returns only five of them (`head(5)`), so
the output is not "the instances with ratio above the cutoff" as claimed. -/
theorem c8_counterexample :
    (gainers [⟨"s1", 7, some 1⟩, ⟨"s2", 6, some 1⟩, ⟨"s3", 5, some 1⟩,
              ⟨"s4", 4, some 1⟩, ⟨"s5", 3, some 1⟩, ⟨"s6", 2, some 1⟩]).length = 5
    ∧ (List.filter gainerQual
        [⟨"s1", 7, some 1⟩, ⟨"s2", 6, some 1⟩, ⟨"s3", 5, some 1⟩,
         ⟨"s4", 4, some 1⟩, ⟨"s5", 3, some 1⟩, ⟨"s6", 2, some 1⟩]).length = 6 := by
  constructor <;>
    norm_num [gainers, gainerQual, high_volume_states, optGtC,
      gtv_vs_median_ratio, safe_divide, ratioD]

/-- C8, amended: among floor-passing instances, `gainers` returns at most the
first five with ratio above `1.1` in descending ratio order, and `losers` at
most the first five with ratio below `0.9` in ascending ratio order; whenever
at most five instances qualify, every qualifying instance appears.  The order
among equal ratios is not specified (pandas' default quicksort is unstable),
so only the nonstrict ordering is asserted.  On the spec's example,
A(150, median 100) is the sole gainer with ratio 1.5 and B(40, median 100)
the sole decliner with ratio 0.4. -/
theorem c8_ranker (rows : List StateRow) :
    ((gainers rows).length ≤ 5
      ∧ (∀ r ∈ gainers rows, r ∈ rows ∧ gainerQual r = true)
      ∧ (gainers rows).Pairwise (fun a b => ratioD b ≤ ratioD a)
      ∧ ((rows.filter gainerQual).length ≤ 5 →
          ∀ r ∈ rows, gainerQual r = true → r ∈ gainers rows))
    ∧ ((losers rows).length ≤ 5
      ∧ (∀ r ∈ losers rows, r ∈ rows ∧ loserQual r = true)
      ∧ (losers rows).Pairwise (fun a b => ratioD a ≤ ratioD b)
      ∧ ((rows.filter loserQual).length ≤ 5 →
          ∀ r ∈ rows, loserQual r = true → r ∈ losers rows))
    ∧ gainers [⟨"A", 150, some 100⟩, ⟨"B", 40, some 100⟩] = [⟨"A", 150, some 100⟩]
    ∧ gtv_vs_median_ratio ⟨"A", 150, some 100⟩ = some (3/2)
    ∧ losers [⟨"A", 150, some 100⟩, ⟨"B", 40, some 100⟩] = [⟨"B", 40, some 100⟩]
    ∧ gtv_vs_median_ratio ⟨"B", 40, some 100⟩ = some (2/5) := by
  haveI hT1 : IsTotal StateRow (fun a b => ratioD b ≤ ratioD a) :=
    ⟨fun a b => le_total (ratioD b) (ratioD a)⟩
  haveI hT2 : IsTrans StateRow (fun a b => ratioD b ≤ ratioD a) :=
    ⟨fun _ _ _ h1 h2 => le_trans h2 h1⟩
  haveI hT3 : IsTotal StateRow (fun a b => ratioD a ≤ ratioD b) :=
    ⟨fun a b => le_total (ratioD a) (ratioD b)⟩
  haveI hT4 : IsTrans StateRow (fun a b => ratioD a ≤ ratioD b) :=
    ⟨fun _ _ _ h1 h2 => le_trans h1 h2⟩
  refine ⟨⟨?_, ?_, ?_, ?_⟩, ⟨?_, ?_, ?_, ?_⟩, ?_, ?_, ?_, ?_⟩
  · rw [gainers_eq_filter]
    exact List.length_take_le 5 _
  · intro r hr
    rw [gainers_eq_filter] at hr
    have h1 := List.mem_of_mem_take hr
    have h2 := (List.perm_insertionSort (fun a b => ratioD b ≤ ratioD a)
      (rows.filter gainerQual)).mem_iff.mp h1
    exact ⟨(List.mem_filter.mp h2).1, (List.mem_filter.mp h2).2⟩
  · rw [gainers_eq_filter]
    exact (List.sorted_insertionSort (fun a b => ratioD b ≤ ratioD a)
      (rows.filter gainerQual)).take
  · intro hlen r hr hq
    rw [gainers_eq_filter]
    have hperm := List.perm_insertionSort (fun a b => ratioD b ≤ ratioD a)
      (rows.filter gainerQual)
    have hlen2 : ((rows.filter gainerQual).insertionSort
        (fun a b => ratioD b ≤ ratioD a)).length ≤ 5 := by
      rw [hperm.length_eq]
      exact hlen
    rw [List.take_of_length_le hlen2]
    exact hperm.mem_iff.mpr (List.mem_filter.mpr ⟨hr, hq⟩)
  · rw [losers_eq_filter]
    exact List.length_take_le 5 _
  · intro r hr
    rw [losers_eq_filter] at hr
    have h1 := List.mem_of_mem_take hr
    have h2 := (List.perm_insertionSort (fun a b => ratioD a ≤ ratioD b)
      (rows.filter loserQual)).mem_iff.mp h1
    exact ⟨(List.mem_filter.mp h2).1, (List.mem_filter.mp h2).2⟩
  · rw [losers_eq_filter]
    exact (List.sorted_insertionSort (fun a b => ratioD a ≤ ratioD b)
      (rows.filter loserQual)).take
  · intro hlen r hr hq
    rw [losers_eq_filter]
    have hperm := List.perm_insertionSort (fun a b => ratioD a ≤ ratioD b)
      (rows.filter loserQual)
    have hlen2 : ((rows.filter loserQual).insertionSort
        (fun a b => ratioD a ≤ ratioD b)).length ≤ 5 := by
      rw [hperm.length_eq]
      exact hlen
    rw [List.take_of_length_le hlen2]
    exact hperm.mem_iff.mpr (List.mem_filter.mpr ⟨hr, hq⟩)
  · norm_num [gainers, high_volume_states, optGtC, gtv_vs_median_ratio,
      safe_divide, ratioD]
  · norm_num [gtv_vs_median_ratio, safe_divide]
  · norm_num [losers, high_volume_states, optLtC, gtv_vs_median_ratio,
      safe_divide, ratioD]
  · norm_num [gtv_vs_median_ratio, safe_divide]

/-- C8, witness: the completeness conjunct applied to the spec's two-instance
example — instance A qualifies and indeed appears among the gainers. -/
theorem c8_ranker_witness :
    (⟨"A", 150, some 100⟩ : StateRow) ∈
      gainers [⟨"A", 150, some 100⟩, ⟨"B", 40, some 100⟩] := by
  apply (c8_ranker [⟨"A", 150, some 100⟩, ⟨"B", 40, some 100⟩]).1.2.2.2
  · norm_num [gainerQual, optGtC, gtv_vs_median_ratio, safe_divide]
  · simp
  · norm_num [gainerQual, optGtC, gtv_vs_median_ratio, safe_divide]

end AepsDashboard
